import Mathlib

/-!
Verification of the Bray–Liebhafsky simulation code (src/AS.py).

The file shallowly embeds the two functions of the source:
  * `bray_liebhafsky_model` — the kinetics right-hand side;
  * `bl_model` — the simulation driver, which builds the evaluation grid,
    invokes the external scipy solver `solve_ivp`, and optionally plots.

Real concentrations are modelled over a commutative ring (instantiated at
`ℚ` for executable checks and at `ℝ` for the analytic statements).  The
external solver is an explicit function argument of the driver; a Python
exception raised by the solver is an `Except.error` that the driver, having
no handler, propagates.  The Python function `bl_model` has no `return`
statement, so its value is `None`; the embedding records this in the
`result` field of `DriverRun`.
-/

namespace AS

/-- The 4-component state vector (U, V, Z, W) used by the model:
U = HIO₂, V = I⁻, Z = I₂, W = O₂. -/
structure Vec4 (K : Type) where
  U : K
  V : K
  Z : K
  W : K
deriving DecidableEq, Repr

/-- `bray_liebhafsky_model(t, y, R1..R7)` from src/AS.py lines 7–36:
unpacks `U, V, Z, W = y` and returns the derivative vector
`[dUdt, dVdt, dZdt, dWdt]`.  The time `t` does not occur on the
right-hand side. -/
def bray_liebhafsky_model {K : Type} [CommRing K] (t : K) (y : Vec4 K)
    (R1 R2 R3 R4 R5 R6 R7 : K) : Vec4 K :=
  let U := y.U
  let V := y.V
  let Z := y.Z
  let W := y.W
  { U := R1 * V + R3 * U - R2 * U * V - R4 * U ^ 2
    V := R5 * Z - R1 * V - R2 * U * V
    Z := R3 * U - (R5 + R7) * Z
    W := -R6 * W }

/-- `np.linspace(0, t_max, n)` as used on line 68 of src/AS.py:
the `n` evenly spaced points `t_max * i / (n - 1)` for `i = 0, …, n-1`. -/
def linspace (t_max : ℚ) (n : ℕ) : List ℚ :=
  (List.range n).map fun i : ℕ => t_max * (i : ℚ) / ((n : ℚ) - 1)

/-- The seven rate parameters R1..R7 passed as `args` to the solver. -/
structure RateParams where
  R1 : ℚ
  R2 : ℚ
  R3 : ℚ
  R4 : ℚ
  R5 : ℚ
  R6 : ℚ
  R7 : ℚ
deriving DecidableEq, Repr

/-- The argument record of the single `solve_ivp` invocation made by
`bl_model` (src/AS.py lines 70–77). -/
structure SolverCall where
  y0 : List ℚ
  t_span : ℚ × ℚ
  args : RateParams
  t_eval : List ℚ
  method : String
deriving DecidableEq, Repr

/-- The object returned by scipy's `solve_ivp`: a success flag, the reported
times `sol.t`, the four value rows `sol.y`, and a diagnostic message.
When integration fails to meet tolerance/step constraints, scipy returns
normally with `success := false` and the partial data computed so far. -/
structure Solution where
  success : Bool
  t : List ℚ
  y : List (List ℚ)
  message : String
deriving DecidableEq, Repr

/-- The keyword configuration of `bl_model`, with the defaults of
src/AS.py lines 41–44. -/
structure SimConfig where
  t_max : ℚ := 3000
  n_points : ℕ := 5000
  method : String := "RK45"
  plot : Bool := true
deriving DecidableEq, Repr

/-- The observable outcome of one successful `bl_model` run: the solver
call that was made, what was handed to the plotting code (`some sol` when
`plot` is set, `none` otherwise), and the Python return value — `none`,
since `bl_model` has no `return` statement. -/
structure DriverRun where
  call : SolverCall
  plotted : Option Solution
  result : Option Solution
deriving DecidableEq, Repr

/-- The `solve_ivp` argument record that `bl_model` constructs from its
inputs: `y0 = [U0, V0, Z0, W0]`, `t_span = (0, t_max)`,
`t_eval = linspace(0, t_max, n_points)`, `args = (R1, …, R7)`,
and the configured method. -/
def driverCall (U0 V0 Z0 W0 R1 R2 R3 R4 R5 R6 R7 : ℚ)
    (cfg : SimConfig) : SolverCall :=
  { y0 := [U0, V0, Z0, W0]
    t_span := ((0 : ℚ), cfg.t_max)
    args := { R1 := R1, R2 := R2, R3 := R3, R4 := R4, R5 := R5, R6 := R6, R7 := R7 }
    t_eval := linspace cfg.t_max cfg.n_points
    method := cfg.method }

/-- `bl_model(U0, V0, Z0, W0, R1..R7, t_max, n_points, method, plot)` from
src/AS.py lines 39–101.  The external solver is the explicit argument
`solve_ivp`; an exception it raises propagates unchanged (the source has no
handler).  The body: build `y0`, `t_span`, `t_eval`; call the solver once;
if `plot`, hand the solution to the plotting code; fall off the end,
returning `None`. -/
def bl_model (solve_ivp : SolverCall → Except String Solution)
    (U0 V0 Z0 W0 R1 R2 R3 R4 R5 R6 R7 : ℚ)
    (cfg : SimConfig) : Except String DriverRun :=
  let y0 := [U0, V0, Z0, W0]
  let t_span := ((0 : ℚ), cfg.t_max)
  let t_eval := linspace cfg.t_max cfg.n_points
  let call : SolverCall :=
    { y0 := y0
      t_span := t_span
      args := { R1 := R1, R2 := R2, R3 := R3, R4 := R4, R5 := R5, R6 := R6, R7 := R7 }
      t_eval := t_eval
      method := cfg.method }
  match solve_ivp call with
  | .error e => .error e
  | .ok sol =>
      .ok { call := call
            plotted := if cfg.plot then some sol else none
            result := none }

/-- The methods accepted by scipy's `solve_ivp`; any other string makes the
solver raise a `ValueError` at invocation. -/
def supportedMethods : List String := ["RK45", "RK23", "DOP853", "Radau", "BDF", "LSODA"]

/-- A solver stub returning a fixed solution, used to instantiate the
driver theorems at concrete inputs. -/
def constSolver (sol : Solution) : SolverCall → Except String Solution :=
  fun _ => .ok sol

/-- A sample successful solver output. -/
def demoSolution : Solution :=
  { success := true
    t := [0, 5, 10]
    y := [[1000, 900, 800], [995, 900, 800], [3, 2, 1], [2, 1, 1]]
    message := "The solver successfully reached the end of the integration interval." }

/-- A sample failed solver output: `success = false` with partial data,
as scipy returns when step-size control fails. -/
def failedSolution : Solution :=
  { success := false
    t := [0]
    y := [[1000], [995], [3], [2]]
    message := "Required step size is less than spacing between numbers." }

/-- `y : ℝ → Vec4 ℝ` is an exact solution of the model with parameters
R1..R7: at every time each component has the derivative given by
`bray_liebhafsky_model`. -/
def IsSolution (R1 R2 R3 R4 R5 R6 R7 : ℝ) (y : ℝ → Vec4 ℝ) : Prop :=
  ∀ t : ℝ,
    HasDerivAt (fun s => (y s).U) (bray_liebhafsky_model t (y t) R1 R2 R3 R4 R5 R6 R7).U t ∧
    HasDerivAt (fun s => (y s).V) (bray_liebhafsky_model t (y t) R1 R2 R3 R4 R5 R6 R7).V t ∧
    HasDerivAt (fun s => (y s).Z) (bray_liebhafsky_model t (y t) R1 R2 R3 R4 R5 R6 R7).Z t ∧
    HasDerivAt (fun s => (y s).W) (bray_liebhafsky_model t (y t) R1 R2 R3 R4 R5 R6 R7).W t

/-- C1: for every time `t`, state vector `(U,V,Z,W)` and parameters
R1..R7, the kinetics function returns exactly the derivative vector
`(R1*V + R3*U − R2*U*V − R4*U², R5*Z − R1*V − R2*U*V,
R3*U − (R5+R7)*Z, −R6*W)`. -/
theorem bray_liebhafsky_model_formula {K : Type} [CommRing K] (t : K) (y : Vec4 K)
    (R1 R2 R3 R4 R5 R6 R7 : K) :
    bray_liebhafsky_model t y R1 R2 R3 R4 R5 R6 R7 =
      { U := R1 * y.V + R3 * y.U - R2 * y.U * y.V - R4 * y.U ^ 2
        V := R5 * y.Z - R1 * y.V - R2 * y.U * y.V
        Z := R3 * y.U - (R5 + R7) * y.Z
        W := -R6 * y.W } := rfl

/-- C7: the kinetics function is autonomous — for any two times `t1`,
`t2` and the same state and parameters it returns the same derivative
vector. -/
theorem bray_liebhafsky_model_autonomous {K : Type} [CommRing K] (t1 t2 : K)
    (y : Vec4 K) (R1 R2 R3 R4 R5 R6 R7 : K) :
    bray_liebhafsky_model t1 y R1 R2 R3 R4 R5 R6 R7 =
      bray_liebhafsky_model t2 y R1 R2 R3 R4 R5 R6 R7 := rfl

/-- C6: at any state with `U = V = Z = 0` the first three derivative
components vanish, for any parameters and any `W`; consequently the
trajectory `t ↦ (0, 0, 0, W0·exp(−R6·t))` — which keeps `(U,V,Z)` at
`(0,0,0)` for all `t` — is an exact solution of the model, so `(0,0,0)`
is a fixed point for `U, V, Z`. -/
theorem fixed_point_UVZ (R1 R2 R3 R4 R5 R6 R7 W W0 t : ℝ) :
    (bray_liebhafsky_model t ⟨0, 0, 0, W⟩ R1 R2 R3 R4 R5 R6 R7).U = 0 ∧
    (bray_liebhafsky_model t ⟨0, 0, 0, W⟩ R1 R2 R3 R4 R5 R6 R7).V = 0 ∧
    (bray_liebhafsky_model t ⟨0, 0, 0, W⟩ R1 R2 R3 R4 R5 R6 R7).Z = 0 ∧
    IsSolution R1 R2 R3 R4 R5 R6 R7
      (fun s => ⟨0, 0, 0, W0 * Real.exp (-R6 * s)⟩) := by
  refine ⟨by simp [bray_liebhafsky_model], by simp [bray_liebhafsky_model],
    by simp [bray_liebhafsky_model], fun s => ?_⟩
  refine ⟨?_, ?_, ?_, ?_⟩
  · simpa [bray_liebhafsky_model] using hasDerivAt_const s (0 : ℝ)
  · simpa [bray_liebhafsky_model] using hasDerivAt_const s (0 : ℝ)
  · simpa [bray_liebhafsky_model] using hasDerivAt_const s (0 : ℝ)
  · have h1 : HasDerivAt (fun u : ℝ => -R6 * u) (-R6) s := by
      simpa using (hasDerivAt_id s).const_mul (-R6)
    have h2 := h1.exp
    have h3 := h2.const_mul W0
    have : (bray_liebhafsky_model s
        (⟨0, 0, 0, W0 * Real.exp (-R6 * s)⟩ : Vec4 ℝ) R1 R2 R3 R4 R5 R6 R7).W =
        W0 * (Real.exp (-R6 * s) * -R6) := by
      simp [bray_liebhafsky_model]; ring
    rw [this]
    exact h3

/-- The `i`-th sample time: `t_max * i / (n - 1)`. -/
lemma linspace_getD (t_max : ℚ) (n i : ℕ) (hi : i < n) :
    (linspace t_max n).getD i 0 = t_max * (i : ℚ) / ((n : ℚ) - 1) := by
  rw [linspace, List.getD_eq_getElem?_getD, List.getElem?_map, List.getElem?_range hi]
  rfl

lemma linspace_length (t_max : ℚ) (n : ℕ) : (linspace t_max n).length = n := by
  rw [linspace, List.length_map, List.length_range]

/-- C5: for `t_max > 0` and `n_points ≥ 2`, the sample-time sequence
`linspace t_max n_points` built by the driver has length `n_points`,
starts at `0`, ends at `t_max`, is strictly increasing, and is evenly
spaced with step `t_max / (n_points − 1)`. -/
theorem linspace_grid (t_max : ℚ) (n : ℕ) (ht : 0 < t_max) (hn : 2 ≤ n) :
    (linspace t_max n).length = n ∧
    (linspace t_max n).getD 0 0 = 0 ∧
    (linspace t_max n).getD (n - 1) 0 = t_max ∧
    (∀ i j, i < j → j < n →
      (linspace t_max n).getD i 0 < (linspace t_max n).getD j 0) ∧
    (∀ i, i + 1 < n →
      (linspace t_max n).getD (i + 1) 0 - (linspace t_max n).getD i 0 =
        t_max / ((n : ℚ) - 1)) := by
  have hn1 : (1 : ℚ) < (n : ℚ) := by exact_mod_cast hn.trans_lt' one_lt_two
  have hd : (0 : ℚ) < (n : ℚ) - 1 := by linarith
  have hd0 : ((n : ℚ) - 1) ≠ 0 := ne_of_gt hd
  refine ⟨linspace_length t_max n, ?_, ?_, ?_, ?_⟩
  · rw [linspace_getD t_max n 0 (by omega)]
    simp
  · rw [linspace_getD t_max n (n - 1) (by omega)]
    have hc : ((n - 1 : ℕ) : ℚ) = (n : ℚ) - 1 := by
      have : 1 ≤ n := by omega
      push_cast [this]
      ring
    rw [hc, mul_div_assoc, div_self hd0, mul_one]
  · intro i j hij hj
    rw [linspace_getD t_max n i (hij.trans hj), linspace_getD t_max n j hj]
    have hij' : (i : ℚ) < (j : ℚ) := by exact_mod_cast hij
    have : t_max * (i : ℚ) < t_max * (j : ℚ) := by
      exact mul_lt_mul_of_pos_left hij' ht
    exact div_lt_div_of_pos_right this hd
  · intro i hi
    rw [linspace_getD t_max n (i + 1) hi, linspace_getD t_max n i (by omega)]
    push_cast
    field_simp
    ring

/-- Witness for C5 at `t_max = 10`, `n = 3`: the hypotheses hold and the
grid has the stated length. -/
theorem linspace_grid_witness :
    (0 : ℚ) < 10 ∧ 2 ≤ 3 ∧ (linspace 10 3).length = 3 :=
  ⟨by decide, by decide, (linspace_grid 10 3 (by decide) (by decide)).1⟩

/-- Unfolding lemma: `bl_model` invokes the solver exactly once, on the
call record `driverCall`, and wraps the outcome. -/
lemma bl_model_eq (s : SolverCall → Except String Solution)
    (U0 V0 Z0 W0 R1 R2 R3 R4 R5 R6 R7 : ℚ) (cfg : SimConfig) :
    bl_model s U0 V0 Z0 W0 R1 R2 R3 R4 R5 R6 R7 cfg =
      match s (driverCall U0 V0 Z0 W0 R1 R2 R3 R4 R5 R6 R7 cfg) with
      | .error e => .error e
      | .ok sol =>
          .ok { call := driverCall U0 V0 Z0 W0 R1 R2 R3 R4 R5 R6 R7 cfg
                plotted := if cfg.plot then some sol else none
                result := none } := rfl

/-- C2 counterexample: at the repository's own parameters, with a solver
that succeeds, `bl_model` returns `None` (modelled as `result = none`):
the Python function has no `return` statement, so the caller never
receives the Trajectory. -/
theorem bl_model_returns_none :
    Except.map (fun r : DriverRun => r.result)
      (bl_model (constSolver demoSolution) 1000 995 3 2
        0.0035 1 1.99 0.0028 1 0.0017 0.02
        { t_max := 3000, n_points := 5, method := "RK45", plot := true }) =
      Except.ok none := rfl

/-- C2 (amended): when the solver succeeds, the driver hands it a time
grid of length `n_points`, forwards the solution to the visualization
collaborator exactly when `plot` is set, and returns `None` — the
Trajectory is never returned to the caller. -/
theorem bl_model_discards_trajectory (s : SolverCall → Except String Solution)
    (U0 V0 Z0 W0 R1 R2 R3 R4 R5 R6 R7 : ℚ) (cfg : SimConfig) (sol : Solution)
    (h : s (driverCall U0 V0 Z0 W0 R1 R2 R3 R4 R5 R6 R7 cfg) = .ok sol) :
    (driverCall U0 V0 Z0 W0 R1 R2 R3 R4 R5 R6 R7 cfg).t_eval.length = cfg.n_points ∧
    bl_model s U0 V0 Z0 W0 R1 R2 R3 R4 R5 R6 R7 cfg =
      .ok { call := driverCall U0 V0 Z0 W0 R1 R2 R3 R4 R5 R6 R7 cfg
            plotted := if cfg.plot then some sol else none
            result := none } := by
  refine ⟨linspace_length cfg.t_max cfg.n_points, ?_⟩
  rw [bl_model_eq, h]

/-- Witness for C2 (amended) with a constant successful solver. -/
theorem bl_model_discards_trajectory_witness :
    constSolver demoSolution
        (driverCall 1000 995 3 2 0.0035 1 1.99 0.0028 1 0.0017 0.02
          { t_max := 10, n_points := 3, method := "RK45", plot := false }) =
      .ok demoSolution ∧
    bl_model (constSolver demoSolution) 1000 995 3 2
        0.0035 1 1.99 0.0028 1 0.0017 0.02
        { t_max := 10, n_points := 3, method := "RK45", plot := false } =
      .ok { call := driverCall 1000 995 3 2 0.0035 1 1.99 0.0028 1 0.0017 0.02
              { t_max := 10, n_points := 3, method := "RK45", plot := false }
            plotted := none
            result := none } :=
  ⟨rfl, (bl_model_discards_trajectory (constSolver demoSolution)
    1000 995 3 2 0.0035 1 1.99 0.0028 1 0.0017 0.02
    { t_max := 10, n_points := 3, method := "RK45", plot := false }
    demoSolution rfl).2⟩

/-- C3 counterexample: called with `n_points = 1`, `bl_model` raises no
`ConfigurationError` and the solver IS invoked — a solver that reports
its own invocation is reached and its outcome is what the call returns. -/
theorem bl_model_invokes_solver_one_point :
    bl_model (fun _ => Except.error "solve_ivp invoked") 1000 995 3 2
        0.0035 1 1.99 0.0028 1 0.0017 0.02
        { t_max := 3000, n_points := 1, method := "RK45", plot := false } =
      Except.error "solve_ivp invoked" := rfl

/-- C3 (amended): the driver performs no configuration validation — even
when `n_points < 2` or `t_max ≤ 0` it builds the time grid and invokes
the solver, and its outcome is exactly the wrapped solver outcome; no
`ConfigurationError` exists in the code. -/
theorem bl_model_no_validation (s : SolverCall → Except String Solution)
    (U0 V0 Z0 W0 R1 R2 R3 R4 R5 R6 R7 : ℚ) (cfg : SimConfig)
    (h : cfg.n_points < 2 ∨ cfg.t_max ≤ 0) :
    bl_model s U0 V0 Z0 W0 R1 R2 R3 R4 R5 R6 R7 cfg =
      Except.map
        (fun sol =>
          { call := driverCall U0 V0 Z0 W0 R1 R2 R3 R4 R5 R6 R7 cfg
            plotted := if cfg.plot then some sol else none
            result := none })
        (s (driverCall U0 V0 Z0 W0 R1 R2 R3 R4 R5 R6 R7 cfg)) := by
  rw [bl_model_eq]
  cases s (driverCall U0 V0 Z0 W0 R1 R2 R3 R4 R5 R6 R7 cfg) <;> rfl

/-- Witness for C3 (amended) at `n_points = 1`. -/
theorem bl_model_no_validation_witness :
    (1 : ℕ) < 2 ∧
    bl_model (constSolver demoSolution) 1000 995 3 2
        0.0035 1 1.99 0.0028 1 0.0017 0.02
        { t_max := 10, n_points := 1, method := "RK45", plot := false } =
      Except.map
        (fun sol =>
          { call := driverCall 1000 995 3 2 0.0035 1 1.99 0.0028 1 0.0017 0.02
              { t_max := 10, n_points := 1, method := "RK45", plot := false }
            plotted := none
            result := none })
        (constSolver demoSolution
          (driverCall 1000 995 3 2 0.0035 1 1.99 0.0028 1 0.0017 0.02
            { t_max := 10, n_points := 1, method := "RK45", plot := false })) :=
  ⟨by decide, bl_model_no_validation (constSolver demoSolution)
    1000 995 3 2 0.0035 1 1.99 0.0028 1 0.0017 0.02
    { t_max := 10, n_points := 1, method := "RK45", plot := false }
    (Or.inl (by decide))⟩

/-- C4 counterexample: when the solver cannot meet its tolerance/step
constraints it returns normally with `success = false` and partial data,
and `bl_model` raises no `IntegrationError`: it returns `.ok` and hands
the partial solution to the plotting code. -/
theorem bl_model_plots_failed_run :
    failedSolution.success = false ∧
    bl_model (constSolver failedSolution) 1000 995 3 2
        0.0035 1 1.99 0.0028 1 0.0017 0.02
        { t_max := 3000, n_points := 4, method := "RK45", plot := true } =
      Except.ok
        { call := driverCall 1000 995 3 2 0.0035 1 1.99 0.0028 1 0.0017 0.02
            { t_max := 3000, n_points := 4, method := "RK45", plot := true }
          plotted := some failedSolution
          result := none } :=
  ⟨rfl, rfl⟩

/-- C4 (amended): the driver never inspects `sol.success` — if the solver
returns an unsuccessful (partial) solution, the call still completes
without error and, when `plot` is set, the partial data is forwarded to
the plotting code. -/
theorem bl_model_ignores_failure (s : SolverCall → Except String Solution)
    (U0 V0 Z0 W0 R1 R2 R3 R4 R5 R6 R7 : ℚ) (cfg : SimConfig) (sol : Solution)
    (hfail : sol.success = false)
    (h : s (driverCall U0 V0 Z0 W0 R1 R2 R3 R4 R5 R6 R7 cfg) = .ok sol) :
    bl_model s U0 V0 Z0 W0 R1 R2 R3 R4 R5 R6 R7 cfg =
      .ok { call := driverCall U0 V0 Z0 W0 R1 R2 R3 R4 R5 R6 R7 cfg
            plotted := if cfg.plot then some sol else none
            result := none } := by
  rw [bl_model_eq, h]

/-- Witness for C4 (amended) with a constant failing solver. -/
theorem bl_model_ignores_failure_witness :
    failedSolution.success = false ∧
    bl_model (constSolver failedSolution) 1000 995 3 2
        0.0035 1 1.99 0.0028 1 0.0017 0.02
        { t_max := 10, n_points := 3, method := "RK45", plot := true } =
      .ok { call := driverCall 1000 995 3 2 0.0035 1 1.99 0.0028 1 0.0017 0.02
              { t_max := 10, n_points := 3, method := "RK45", plot := true }
            plotted := some failedSolution
            result := none } :=
  ⟨rfl, bl_model_ignores_failure (constSolver failedSolution)
    1000 995 3 2 0.0035 1 1.99 0.0028 1 0.0017 0.02
    { t_max := 10, n_points := 3, method := "RK45", plot := true }
    failedSolution rfl rfl⟩

/-- A solver that accepts exactly the supported methods and otherwise
raises the `ValueError` that scipy's `solve_ivp` raises for an
unrecognized method string. -/
def methodCheckSolver : SolverCall → Except String Solution :=
  fun c =>
    if c.method ∈ supportedMethods then .ok demoSolution
    else .error "ValueError: method must be one of the supported solvers"

/-- C8 counterexample: called with the unrecognized method `"Euler"`,
the driver raises no `ConfigurationError` and wraps nothing in an
`IntegrationError` (neither class exists in the code): the solver is
reached and its own plain `ValueError` diagnostic is what surfaces,
propagated unchanged. -/
theorem bl_model_method_valueerror :
    "Euler" ∉ supportedMethods ∧
    bl_model methodCheckSolver 1000 995 3 2
        0.0035 1 1.99 0.0028 1 0.0017 0.02
        { t_max := 3000, n_points := 4, method := "Euler", plot := true } =
      .error "ValueError: method must be one of the supported solvers" :=
  ⟨by decide, rfl⟩

/-- C8 (amended): with a `method` string outside the supported set, the
driver performs no check of its own and forwards that very string to the
solver (never substituting a default); when the solver rejects
unrecognized methods at invocation — as scipy's `solve_ivp` does with a
`ValueError` — the call fails with the solver's own error, propagated
unchanged, not with a driver-raised `ConfigurationError` or
`IntegrationError` (no such classes exist in the code). -/
theorem bl_model_method_rejected (s : SolverCall → Except String Solution)
    (U0 V0 Z0 W0 R1 R2 R3 R4 R5 R6 R7 : ℚ) (cfg : SimConfig) (e : String)
    (hm : cfg.method ∉ supportedMethods)
    (hs : ∀ c : SolverCall, c.method ∉ supportedMethods → s c = .error e) :
    (driverCall U0 V0 Z0 W0 R1 R2 R3 R4 R5 R6 R7 cfg).method = cfg.method ∧
    bl_model s U0 V0 Z0 W0 R1 R2 R3 R4 R5 R6 R7 cfg = .error e := by
  refine ⟨rfl, ?_⟩
  rw [bl_model_eq, hs _ hm]

/-- Witness for C8 (amended) at the unrecognized method string `"Euler"`. -/
theorem bl_model_method_rejected_witness :
    "Euler" ∉ supportedMethods ∧
    bl_model methodCheckSolver 1000 995 3 2
        0.0035 1 1.99 0.0028 1 0.0017 0.02
        { t_max := 10, n_points := 3, method := "Euler", plot := true } =
      .error "ValueError: method must be one of the supported solvers" :=
  ⟨by decide, (bl_model_method_rejected methodCheckSolver
    1000 995 3 2 0.0035 1 1.99 0.0028 1 0.0017 0.02
    { t_max := 10, n_points := 3, method := "Euler", plot := true }
    "ValueError: method must be one of the supported solvers"
    (by decide) (fun c hc => if_neg hc)).2⟩

/-- C9: the simulation is deterministic — the outcome of `bl_model` is a
function of its inputs and of the solver's input/output behaviour alone:
two runs with identical inputs and extensionally equal solvers produce
identical outcomes. -/
theorem bl_model_deterministic (s1 s2 : SolverCall → Except String Solution)
    (U0 V0 Z0 W0 R1 R2 R3 R4 R5 R6 R7 : ℚ) (cfg : SimConfig)
    (h : ∀ c, s1 c = s2 c) :
    bl_model s1 U0 V0 Z0 W0 R1 R2 R3 R4 R5 R6 R7 cfg =
      bl_model s2 U0 V0 Z0 W0 R1 R2 R3 R4 R5 R6 R7 cfg := by
  rw [bl_model_eq, bl_model_eq, h]

/-- Witness for C9 at the repository's parameters. -/
theorem bl_model_deterministic_witness :
    bl_model (constSolver demoSolution) 1000 995 3 2
        0.0035 1 1.99 0.0028 1 0.0017 0.02
        { t_max := 10, n_points := 3, method := "RK45", plot := true } =
      bl_model (constSolver demoSolution) 1000 995 3 2
        0.0035 1 1.99 0.0028 1 0.0017 0.02
        { t_max := 10, n_points := 3, method := "RK45", plot := true } :=
  bl_model_deterministic (constSolver demoSolution) (constSolver demoSolution)
    1000 995 3 2 0.0035 1 1.99 0.0028 1 0.0017 0.02
    { t_max := 10, n_points := 3, method := "RK45", plot := true }
    (fun _ => rfl)

end AS
